import Mathlib

/-!
Verification of the `analista` repository (src/app.py): a Flask bridge that
validates match/odds form data, renders it into a fixed analysis prompt and
forwards it to an external generative-model gateway, wrapping every outcome
into a JSON result.  The definitions below are a shallow embedding of the
functions of `src/app.py`; the nondeterministic outcome of the one external
call made by `processar_consulta` is passed in explicitly as a value of
`RespostaApi`, and the wall clock read by `ConsultaAposta.__post_init__` is
passed in as the explicit argument `agora`.
-/

/-- Modelled from the Python `float` values stored in the odds dictionaries of
`ConsultaAposta`: an exact signed rational `num / den`.  The claims only ever
compare a parsed value with the very value echoed back, so the representation
is kept exactly as the parser builds it (no normalisation is needed). -/
structure PyFloat where
  num : Int
  den : Nat
deriving DecidableEq

/-- Value of a list of decimal digit characters, most significant first. -/
def digitsVal (l : List Char) : Nat := l.foldl (fun a c => 10 * a + (c.toNat - 48)) 0

/-- Modelled from the builtin `float(string)` conversion applied by
`validar_contexto_consulta` (src/app.py lines 347-365): an optional sign, a
decimal numeral with optional fractional part, and an optional exponent.
Python also accepts surrounding whitespace, `inf`/`nan` and underscores; those
forms are outside what the claims exercise and are not modelled. -/
def parsePyFloat (s : String) : Option PyFloat :=
  let cs := s.data
  let (neg, cs) :=
    match cs with
    | '+' :: r => (false, r)
    | '-' :: r => (true, r)
    | r => (false, r)
  let (ip, cs) := cs.span Char.isDigit
  let (fp, cs) :=
    match cs with
    | '.' :: r => r.span Char.isDigit
    | r => ([], r)
  if ip.isEmpty && fp.isEmpty then none
  else
    let baseNum : Nat := digitsVal ip * 10 ^ fp.length + digitsVal fp
    let sgn : Nat → Int := fun n => if neg then -(n : Int) else (n : Int)
    match cs with
    | [] => some ⟨sgn baseNum, 10 ^ fp.length⟩
    | 'e' :: r | 'E' :: r =>
      let (eneg, r2) :=
        match r with
        | '+' :: t => (false, t)
        | '-' :: t => (true, t)
        | t => (false, t)
      let (ed, r3) := r2.span Char.isDigit
      if ed.isEmpty || !r3.isEmpty then none
      else if eneg then some ⟨sgn baseNum, 10 ^ fp.length * 10 ^ digitsVal ed⟩
      else some ⟨sgn (baseNum * 10 ^ digitsVal ed), 10 ^ fp.length⟩
    | _ => none

/-- Left-pads a numeral string with `'0'` up to length `k`. -/
def padEsquerda (s : String) (k : Nat) : String :=
  String.mk (List.replicate (k - s.length) '0') ++ s

/-- Drops trailing `'0'` characters. -/
def stripZerosDireita (s : String) : String :=
  String.mk ((s.data.reverse.dropWhile (fun c => c == '0')).reverse)

/-- Modelled from the Python `str()` rendering of the float odds values that
`_formatar_odds` interpolates into the prompt (`2.1` renders as `"2.1"`,
`3.0` as `"3.0"`).  The validator only produces denominators that divide a
power of ten, so the decimal branch is the live one; the final branch is an
unreachable total-function fallback. -/
def floatRepr (q : PyFloat) : String :=
  let sgn := if q.num < 0 then "-" else ""
  let n := q.num.natAbs
  let d := q.den
  match (List.range 40).find? (fun k => d != 0 && 10 ^ k % d == 0) with
  | some k =>
    if k = 0 then sgn ++ toString n ++ ".0"
    else
      let m := n * (10 ^ k / d)
      let ip := m / 10 ^ k
      let frac := m % 10 ^ k
      let fracStr := stripZerosDireita (padEsquerda (toString frac) k)
      sgn ++ toString ip ++ "." ++ (if fracStr = "" then "0" else fracStr)
  | none => sgn ++ toString n ++ "/" ++ toString d

/-- Modelled from the raw JSON body read by `analisar_aposta` via
`request.get_json()`: a flat mapping from the form field names to string
values; `none` models an absent key (Python `dados.get(k)` returning `None`). -/
structure Dados where
  liga : Option String := none
  time_casa : Option String := none
  time_fora : Option String := none
  odd_casa : Option String := none
  odd_empate : Option String := none
  odd_fora : Option String := none
  odd_over : Option String := none
  odd_under : Option String := none
  odd_btts_sim : Option String := none
  odd_btts_nao : Option String := none
  contexto_adicional : Option String := none
deriving DecidableEq

/-- Python truthiness of `dados.get(k)` for an optional string field: an absent
key (`None`) and the empty string are falsy, every other string is truthy. -/
def truthy (o : Option String) : Bool :=
  match o with
  | none => false
  | some s => !(s == "")

/-- Modelled from the `odds_1x2` dictionary built by `validar_contexto_consulta`
(src/app.py lines 346-350): the validator always stores all three keys, each
mapped to a parsed float or to `None`. -/
structure Odds1x2 where
  casa : Option PyFloat
  empate : Option PyFloat
  fora : Option PyFloat
deriving DecidableEq

/-- Modelled from the `odds_over_under` dictionary (src/app.py lines 355-358). -/
structure OddsOverUnder where
  over : Option PyFloat
  under : Option PyFloat
deriving DecidableEq

/-- Modelled from the `odds_btts` dictionary (src/app.py lines 363-366). -/
structure OddsBtts where
  sim : Option PyFloat
  nao : Option PyFloat
deriving DecidableEq

/-- Modelled from the dataclass `ConsultaAposta` (src/app.py lines 34-48).
The `datetime` timestamp is modelled as an opaque `Nat`; `__post_init__`
defaults it to the submission time, which the embedding passes in explicitly. -/
structure ConsultaAposta where
  liga : String
  time_casa : String
  time_fora : String
  odds_1x2 : Option Odds1x2 := none
  odds_over_under : Option OddsOverUnder := none
  odds_btts : Option OddsBtts := none
  contexto_adicional : Option String := none
  timestamp : Nat := 0
deriving DecidableEq

/-- Modelled from `json.dumps(base_conhecimento["fontes_dados_prioridade"]["P1_XG_Foundation"], indent=2, ensure_ascii=False)`. -/
def fontesP1Json : String :=
  "[\n  \"UnderStat (https://understat.com)\",\n  \"FBref (https://fbref.com/en/)\",\n  \"XGScore (https://xgscore.io/xg-statistics)\"\n]"

/-- Modelled from `json.dumps` of the `P2_Market_Value` list of `base_conhecimento`. -/
def fontesP2Json : String :=
  "[\n  \"OddsAlerts (https://oddalerts.com/xg)\",\n  \"@oddsnotifierbr\"\n]"

/-- Modelled from `json.dumps` of the `P3_Context_History` list of `base_conhecimento`. -/
def fontesP3Json : String :=
  "[\n  \"FootyStats (https://footystats.org/stats/xg)\",\n  \"windrawwin (https://windrawwin.com)\",\n  \"Soccer Stats (https://soccerstats.com)\"\n]"

/-- Modelled from `json.dumps` of the `P4_Live_Context` list of `base_conhecimento`. -/
def fontesP4Json : String :=
  "[\n  \"FotMob (https://fotmob.com/pt-BR)\",\n  \"SofascoreBR (https://sofascore.com)\",\n  \"FlashscoreBR (https://flashscore.com.br)\"\n]"

/-- Modelled from `json.dumps(base_conhecimento["thresholds_decisao"], indent=2, ensure_ascii=False)`. -/
def thresholdsJson : String :=
  "\x7b\n  \"ev_minimo\": 0.02,\n  \"stake_maximo\": 0.02,\n  \"discrepancia_xg_maxima\": 0.15,\n  \"kelly_fraction\": 0.5\n\x7d"

/-- Renders one odds-dictionary entry the way the f-strings of `_formatar_odds`
do: the validator always stores the key, so `dict.get` returns the stored value
(Python renders `None` as `"None"`) and the `'N/A'` default is unreachable. -/
def fmtOdd (o : Option PyFloat) : String :=
  match o with
  | none => "None"
  | some q => floatRepr q

/-- Modelled from `AnalistaQuantitativoXG._formatar_odds` (src/app.py lines
254-268): one bullet line per odds group that is present, joined by newlines,
or a fixed placeholder when no group is present. -/
def formatar_odds (consulta : ConsultaAposta) : String :=
  let odds_texto :=
    (match consulta.odds_1x2 with
     | some g =>
       ["  • 1X2: Casa " ++ (fmtOdd g.casa ++ (" | Empate " ++ (fmtOdd g.empate ++ (" | Fora " ++ fmtOdd g.fora))))]
     | none => [])
    ++ (match consulta.odds_over_under with
     | some g =>
       ["  • Over/Under 2.5: Over " ++ (fmtOdd g.over ++ (" | Under " ++ fmtOdd g.under))]
     | none => [])
    ++ (match consulta.odds_btts with
     | some g =>
       ["  • BTTS: Sim " ++ (fmtOdd g.sim ++ (" | Não " ++ fmtOdd g.nao))]
     | none => [])
  if odds_texto.isEmpty then "  • Odds não fornecidas"
  else String.intercalate "\n" odds_texto

/-- Modelled from the conditional context line of the prompt f-string
(src/app.py line 194): included only when `consulta.contexto_adicional` is
truthy (a non-empty string). -/
def linhaContexto (consulta : ConsultaAposta) : String :=
  if truthy consulta.contexto_adicional then
    "- Contexto Adicional: " ++ consulta.contexto_adicional.getD ""
  else ""

/-- Fixed prompt text from the start of the f-string of
`_gerar_prompt_especializado` up to the interpolation of `consulta.liga`
(src/app.py lines 170-190), with the four `json.dumps` blocks inlined. -/
def promptCabecalho : String :=
  "#METHODOLOGY_CONSTRAINT\n- Modelo Preditivo: A probabilidade real ($P_c$) de resultados (1X2, O/U 2.5, BTTS) deve ser calculada usando os dados XG/XA de 10 jogos como inputs primários para um Modelo de Poisson Bivariado ou similar. Gols Reais (G) são usados apenas para avaliar a variância de finalização, não como preditor primário.\n- Cálculo de Valor: O Valor Esperado ($EV$) é MANDATÓRIO e deve ser calculado pela fórmula $EV = (P_c \\times Odds) - 1$.\n\n#KNOWLEDGE_BASE_RAG_INSTRUCTION\nSua base de dados para análise é a simulação RAG das seguintes URLs. Você deve priorizar a coleta e a coerência dos dados conforme a hierarquia (P1, P2, P3, P4):\n\nP1 (XG Foundation - Prioridade Máxima):\n"
  ++ (fontesP1Json ++ ("\n\nP2 (Market Value & Movement):\n"
  ++ (fontesP2Json ++ ("\n\nP3 (Context & History):\n"
  ++ (fontesP3Json ++ ("\n\nP4 (Live Context & Human Factor):\n"
  ++ (fontesP4Json ++ "\n\n#DATA_INPUT_TEMPLATE\n- Liga/Campeonato: ")))))))

/-- Fixed prompt text between the `liga` and `time_casa` interpolations. -/
def promptPartida : String := "\n- Partida: "

/-- Fixed prompt text between the match line and the formatted odds. -/
def promptOddsLabel : String := "\n- Odds de Mercado:\n"

/-- Fixed prompt text from after the context line up to the second
interpolation of `consulta.time_casa` inside COT_STEP_1 (src/app.py lines
196-200). -/
def promptProtocolo : String :=
  "\n\n#CHAIN_OF_THOUGHT_PROTOCOL\nVocê deve executar a análise em 5 passos CoT sequenciais. A resposta deve apresentar os resultados de cada passo de forma transparente e estruturada.\n\n<COT_STEP_1: Coleta e Power Rating XG>\nRecupere e normalize o XG, XGD, XA e XPts dos últimos 10 jogos para "

/-- Fixed prompt text from after the second interpolation of
`consulta.time_fora` up to the mandatory risk notice (src/app.py lines
200-243). -/
def promptPassos : String :=
  " (fontes P1). Calcule o Power Rating bruto, ajustando o XG pela média da liga e fator casa/fora.\n\nIMPORTANTE: Como você está simulando o acesso às URLs, forneça estimativas razoáveis baseadas no contexto da liga e dos times, deixando claro que são simulações. Cite as fontes que você \"consultaria\" (P1).\n\n<COT_STEP_2: Ajuste Contextual e Sharp Money>\nVerifique Notícias de Lesões/Suspensões (P4) e a Movimentação de Odds (P2). Se um jogador-chave estiver ausente, aplique um fator de penalidade ao XG ajustado. Se as odds mudaram significativamente sem notícias óbvias, sinalize potencial Sharp Money e ajuste a $P_c$ em até 5%.\n\nSIMULAÇÃO: Indique possíveis fatores contextuais relevantes para esta partida específica.\n\n<COT_STEP_3: Cálculo da Probabilidade Real ($P_c$)>\nUtilize o Power Rating XG ajustado (com base no Poisson) para calcular $P_c$ para os mercados 1X2, Over/Under 2.5 e BTTS.\n\nFÓRMULA: Apresente os cálculos de forma transparente, mostrando como chegou aos valores de $P_c$.\n\n<COT_STEP_4: Detecção de Valor Esperado (+EV) e Coerência>\nCompare $P_c$ com $P_o$ (Probabilidade Implícita das Odds) para calcular o $EV$ de todos os mercados disponíveis.\n\nFÓRMULA OBRIGATÓRIA: $EV = (P_c \\times Odds) - 1$\n\nListe os 3 principais mercados onde $EV > 2\\%$. \n\nValide a coerência dos dados:\n- Se houver discrepância de XG > 15% entre fontes P1, sinalize o risco\n- Se $XPts$ da equipe favorita for consistentemente baixo, reduza a confiança na $P_c$\n- Se todos os $EV < 0$, declare \"No Value Found\"\n\n<COT_STEP_5: Decisão e Gerenciamento de Stake>\nSelecione o mercado de maior +EV com menor desvio padrão/variância de XG.\n\nCalcule o Stake (tamanho da aposta) utilizando a fórmula de Kelly Criterion (Half Kelly):\n$Stake (\\% B) = EV / (Odd - 1)$\n\nRESTRIÇÃO: O Stake Máximo permitido é 2% da banca, independentemente do resultado da fórmula.\n\nApresente a Justificativa Final com:\n- Mercado Recomendado\n- Odd\n- EV calculado\n- Stake sugerido (% da banca)\n- Nível de Confiança (Alto/Médio/Baixo)\n\n#ETHICAL_COMPLIANCE_MANDATORY\nO último parágrafo da sua resposta DEVE ser o aviso de risco obrigatório:\n\n"

/-- Fixed mandatory risk-disclaimer paragraph of the prompt (src/app.py line 244). -/
def avisoDeRisco : String :=
  "⚠️ AVISO DE RISCO: A análise de IA não garante lucro. Apostas esportivas envolvem risco significativo de perda financeira. Jogue com responsabilidade e use apenas fundos que você pode perder. Procure ajuda se o jogo se tornar problemático."

/-- Fixed closing prompt text after the risk notice (src/app.py lines 246-250),
with the thresholds `json.dumps` block inlined. -/
def promptEncerramento : String :=
  "\n\nTHRESHOLDS DE DECISÃO:\n" ++ (thresholdsJson ++ "\n\nAGORA, INICIE A ANÁLISE SEGUINDO RIGOROSAMENTE OS 5 PASSOS CoT:\n")

/-- Modelled from `AnalistaQuantitativoXG._gerar_prompt_especializado`
(src/app.py lines 160-252): the single prompt f-string, written as the
concatenation of its fixed pieces and the interpolated `ConsultaAposta`
fields.  `self.base_conhecimento` is the fixed constant returned by
`_carregar_base_conhecimento`, so its `json.dumps` renderings appear here as
the fixed strings inlined in the pieces above. -/
def gerar_prompt_especializado (consulta : ConsultaAposta) : String :=
  let odds_formatadas := formatar_odds consulta
  promptCabecalho
  ++ (consulta.liga
  ++ (promptPartida
  ++ (consulta.time_casa
  ++ (" vs "
  ++ (consulta.time_fora
  ++ (promptOddsLabel
  ++ (odds_formatadas
  ++ ("\n"
  ++ (linhaContexto consulta
  ++ (promptProtocolo
  ++ (consulta.time_casa
  ++ (" e "
  ++ (consulta.time_fora
  ++ (promptPassos
  ++ (avisoDeRisco
  ++ promptEncerramento)))))))))))))))

/-- Outcome of the one external call made by `processar_consulta`, passed in
explicitly: `texto t` models `self.client.generate_content(prompt)` returning a
response whose `.text` is `t`; `bloqueada fb` models `response.text` raising
`ValueError` with `response.prompt_feedback` rendering as `fb` (the Gemini
safety block); `erroExtracao e` models `response.text` raising some other
exception rendering as `e`; `excecao e` models `generate_content` itself (or
anything else inside the outer `try`) raising an exception rendering as `e`. -/
inductive RespostaApi where
  | texto (t : String)
  | bloqueada (fb : String)
  | erroExtracao (e : String)
  | excecao (e : String)
deriving DecidableEq

/-- Modelled from the result dictionaries built by `processar_consulta` and
`analisar_aposta`: either the success payload (src/app.py lines 305-319, no
`erro` key) or an error payload (`erro: True` with `mensagem` and `detalhes`).
The `erro` flag of the JSON payload is `true` exactly on the `erro`
constructor. -/
inductive Resultado where
  | sucesso (analise_completa : String) (partida : String) (liga : String)
      (odds_1x2 : Option Odds1x2) (odds_over_under : Option OddsOverUnder)
      (odds_btts : Option OddsBtts) (timestamp : Nat)
      (modelo_usado : String) (metodologia : String) (disclaimer : String)
  | erro (mensagem : String) (detalhes : String)
deriving DecidableEq

/-- Error message of the outer `except Exception` handler of
`processar_consulta` (src/app.py line 328): the generic transport/internal
failure message. -/
def msgErroInterno : String := "Erro interno ao processar análise quantitativa"

/-- Error message returned when `response.text` raises `ValueError`, i.e. when
the Gemini content-safety system withheld the response (src/app.py line 293). -/
def msgBloqueioSeguranca : String := "A resposta foi bloqueada pela política de segurança do Gemini."

/-- Error message returned when extracting `response.text` raises an exception
other than `ValueError` (src/app.py line 300). -/
def msgErroExtracao : String := "Erro ao extrair texto da resposta do Gemini."

/-- Error message of the `except ValueError` handler of the
`/analisar_aposta` route (src/app.py line 915). -/
def msgDadosInvalidos : String := "Dados de entrada inválidos"

/-- Error message returned by the route when the global gateway instance is
`None` (src/app.py line 906). -/
def msgNaoInicializado : String := "Analista não inicializado"

/-- Details string accompanying `msgNaoInicializado` (src/app.py line 906). -/
def detalhesNaoInicializado : String :=
  "A chave da API pode estar faltando ou o Analista não foi criado na inicialização."

/-- Fixed methodology label of the success payload (src/app.py line 317). -/
def metodologiaConstante : String := "Chain-of-Thought (5 passos) + Modelo Poisson + Kelly Criterion"

/-- Fixed disclaimer string of the success payload (src/app.py line 318). -/
def disclaimerResposta : String :=
  "⚠️ Análise de IA não garante lucro. Apostas envolvem risco de perda financeira."

/-- Modelled from `AnalistaQuantitativoXG.__init__` (src/app.py lines 63-104):
the instance stores the process-wide gateway configuration.  The generation
parameters and the four maximally permissive safety thresholds are fixed
constants that never influence the control flow modelled here, so only the
fields the claims can observe are kept. -/
structure AnalistaQuantitativoXG where
  api_key : String
  model_name : String := "gemini-1.5-pro-latest"
deriving DecidableEq

/-- Modelled from `AnalistaQuantitativoXG.processar_consulta` (src/app.py
lines 270-330): renders the prompt, submits it, and maps the call outcome to a
result dictionary.  Every branch of the Python `try`/`except` structure
returns a dictionary, which is why this embedding is a total function. -/
def processar_consulta (a : AnalistaQuantitativoXG) (consulta : ConsultaAposta)
    (resposta : RespostaApi) : Resultado :=
  match resposta with
  | .excecao e => .erro msgErroInterno e
  | .bloqueada fb => .erro msgBloqueioSeguranca ("Feedback do Prompt: " ++ fb)
  | .erroExtracao e => .erro msgErroExtracao e
  | .texto t =>
    .sucesso t (consulta.time_casa ++ (" vs " ++ consulta.time_fora)) consulta.liga
      consulta.odds_1x2 consulta.odds_over_under consulta.odds_btts consulta.timestamp
      (a.model_name ++ " (Google AI)") metodologiaConstante disclaimerResposta

/-- Modelled from the per-field odds conversion of `validar_contexto_consulta`:
`float(dados.get(k, 0)) if dados.get(k) else None`.  A falsy field yields
`None`; a truthy field is converted, and a conversion failure propagates as the
`ValueError` that Python `float` raises (whose message quotes the offending
string). -/
def parseOdd (o : Option String) : Except String (Option PyFloat) :=
  if truthy o = false then .ok none
  else
    match parsePyFloat (o.getD "") with
    | some q => .ok (some q)
    | none => .error ("could not convert string to float: " ++ o.getD "")

/-- The guard of the 1X2 odds group (src/app.py line 345): some member of the
group is truthy. -/
def grupo1x2Fornecido (dados : Dados) : Bool :=
  truthy dados.odd_casa || truthy dados.odd_empate || truthy dados.odd_fora

/-- The guard of the over/under odds group (src/app.py line 354). -/
def grupoOverUnderFornecido (dados : Dados) : Bool :=
  truthy dados.odd_over || truthy dados.odd_under

/-- The guard of the BTTS odds group (src/app.py line 362). -/
def grupoBttsFornecido (dados : Dados) : Bool :=
  truthy dados.odd_btts_sim || truthy dados.odd_btts_nao

/-- Modelled from the `odds_1x2` block of `validar_contexto_consulta`
(src/app.py lines 344-350).  The dictionary literal evaluates `casa`, then
`empate`, then `fora`, so the first failing conversion raises. -/
def validarOdds1x2 (dados : Dados) : Except String (Option Odds1x2) :=
  if grupo1x2Fornecido dados then
    match parseOdd dados.odd_casa, parseOdd dados.odd_empate, parseOdd dados.odd_fora with
    | .ok casa, .ok empate, .ok fora => .ok (some ⟨casa, empate, fora⟩)
    | .error e, _, _ => .error e
    | .ok _, .error e, _ => .error e
    | .ok _, .ok _, .error e => .error e
  else .ok none

/-- Modelled from the `odds_over_under` block (src/app.py lines 353-358). -/
def validarOddsOverUnder (dados : Dados) : Except String (Option OddsOverUnder) :=
  if grupoOverUnderFornecido dados then
    match parseOdd dados.odd_over, parseOdd dados.odd_under with
    | .ok over, .ok under => .ok (some ⟨over, under⟩)
    | .error e, _ => .error e
    | .ok _, .error e => .error e
  else .ok none

/-- Modelled from the `odds_btts` block (src/app.py lines 361-366). -/
def validarOddsBtts (dados : Dados) : Except String (Option OddsBtts) :=
  if grupoBttsFornecido dados then
    match parseOdd dados.odd_btts_sim, parseOdd dados.odd_btts_nao with
    | .ok sim, .ok nao => .ok (some ⟨sim, nao⟩)
    | .error e, _ => .error e
    | .ok _, .error e => .error e
  else .ok none

/-- Modelled from `AnalistaQuantitativoXG.validar_contexto_consulta`
(src/app.py lines 332-376): the three required-field truthiness checks raise
`ValueError` with field-specific messages, then the three odds groups are
converted in order, and finally the `ConsultaAposta` is built (its timestamp
defaulting to the submission time `agora` via `__post_init__`). -/
def validar_contexto_consulta (dados : Dados) (agora : Nat) : Except String ConsultaAposta :=
  if truthy dados.liga = false then .error "Liga/Campeonato é obrigatório"
  else if truthy dados.time_casa = false then .error "Time da casa é obrigatório"
  else if truthy dados.time_fora = false then .error "Time visitante é obrigatório"
  else
    match validarOdds1x2 dados with
    | .error e => .error e
    | .ok odds_1x2 =>
      match validarOddsOverUnder dados with
      | .error e => .error e
      | .ok odds_over_under =>
        match validarOddsBtts dados with
        | .error e => .error e
        | .ok odds_btts =>
          .ok { liga := dados.liga.getD "", time_casa := dados.time_casa.getD "",
                time_fora := dados.time_fora.getD "",
                odds_1x2 := odds_1x2, odds_over_under := odds_over_under,
                odds_btts := odds_btts,
                contexto_adicional := dados.contexto_adicional, timestamp := agora }

/-- Modelled from the `/analisar_aposta` route (src/app.py lines 900-918).
`analista_instance` is the process-wide global set at startup (`None` when the
API credential was absent).  A `None` instance short-circuits to a 500 error;
a validation `ValueError` is caught and returned as a 400 error; otherwise the
result of `processar_consulta` is returned by `jsonify` with the default 200
status, whether it is a success or an error payload.  The route's final
`except Exception` (500) is unreachable here because `validar_contexto_consulta`
raises only `ValueError` and `processar_consulta` returns on every path. -/
def analisar_aposta (analista_instance : Option AnalistaQuantitativoXG) (dados : Dados)
    (agora : Nat) (resposta : RespostaApi) : Resultado × Nat :=
  match analista_instance with
  | none => (.erro msgNaoInicializado detalhesNaoInicializado, 500)
  | some a =>
    match validar_contexto_consulta dados agora with
    | .error e => (.erro msgDadosInvalidos e, 400)
    | .ok consulta => (processar_consulta a consulta resposta, 200)

/-- The `erro` flag of the JSON payload: `true` exactly on error payloads. -/
def Resultado.ehErro : Resultado → Bool
  | .sucesso _ _ _ _ _ _ _ _ _ _ => false
  | .erro _ _ => true

/-- Whether the payload is the success shape. -/
def Resultado.ehSucesso : Resultado → Bool
  | .sucesso _ _ _ _ _ _ _ _ _ _ => true
  | .erro _ _ => false

/-- The `mensagem` field of an error payload. -/
def Resultado.mensagemErro : Resultado → Option String
  | .sucesso _ _ _ _ _ _ _ _ _ _ => none
  | .erro m _ => some m

/-- The `1x2` entry of the echoed `odds_fornecidas` of a success payload. -/
def Resultado.eco1x2 : Resultado → Option (Option Odds1x2)
  | .sucesso _ _ _ o _ _ _ _ _ _ => some o
  | .erro _ _ => none

/-- The `over_under` entry of the echoed `odds_fornecidas` of a success payload. -/
def Resultado.ecoOverUnder : Resultado → Option (Option OddsOverUnder)
  | .sucesso _ _ _ _ o _ _ _ _ _ => some o
  | .erro _ _ => none

/-- The `btts` entry of the echoed `odds_fornecidas` of a success payload. -/
def Resultado.ecoBtts : Resultado → Option (Option OddsBtts)
  | .sucesso _ _ _ _ _ o _ _ _ _ => some o
  | .erro _ _ => none

/-- The `metodologia` field of a success payload. -/
def Resultado.metodologiaCampo : Resultado → Option String
  | .sucesso _ _ _ _ _ _ _ _ m _ => some m
  | .erro _ _ => none

/-- Substring containment, used to state what the rendered prompt contains. -/
def strContains (s sub : String) : Prop :=
  ∃ pre post, s = pre ++ (sub ++ post)

/-- A gateway instance with a concrete (arbitrary) API key, for witnesses. -/
def analistaTeste : AnalistaQuantitativoXG := { api_key := "chave-teste" }

/-- The minimal valid request body named by the spec: league `Test League`,
home `A`, away `B`, no odds, no context. -/
def dadosTeste : Dados :=
  { liga := some "Test League", time_casa := some "A", time_fora := some "B" }

/-- The `ConsultaAposta` that `validar_contexto_consulta` builds from
`dadosTeste` at time `0`. -/
def consultaTeste : ConsultaAposta :=
  { liga := "Test League", time_casa := "A", time_fora := "B", timestamp := 0 }

/-- Request body missing the required `liga` field, for witnesses. -/
def dadosSemLiga : Dados :=
  { time_casa := some "A", time_fora := some "B" }

/-- Python truthiness of an odds field together with an unparsable value: the
field is provided (truthy) but `float()` fails on it. -/
def campoOddInvalido (o : Option String) : Bool :=
  truthy o && (parsePyFloat (o.getD "")).isNone

/-- Some of the seven odds fields of the request is truthy but unparsable. -/
def algumaOddInvalida (dados : Dados) : Bool :=
  campoOddInvalido dados.odd_casa || campoOddInvalido dados.odd_empate ||
  campoOddInvalido dados.odd_fora || campoOddInvalido dados.odd_over ||
  campoOddInvalido dados.odd_under || campoOddInvalido dados.odd_btts_sim ||
  campoOddInvalido dados.odd_btts_nao

/-- Request body exercising the odds parser: 1X2 present only through
`odd_empate`, BTTS present only through `odd_btts_sim`. -/
def dadosComOdds : Dados :=
  { liga := some "Serie A", time_casa := some "X", time_fora := some "Y",
    odd_empate := some "3.4", odd_btts_sim := some "1.7" }

/-- The `ConsultaAposta` built from `dadosComOdds` at time `0`. -/
def consultaComOdds : ConsultaAposta :=
  { liga := "Serie A", time_casa := "X", time_fora := "Y",
    odds_1x2 := some ⟨none, some ⟨34, 10⟩, none⟩,
    odds_btts := some ⟨some ⟨17, 10⟩, none⟩, timestamp := 0 }

/-- Request body with an odds field present but holding the empty string. -/
def dadosOddVazia : Dados :=
  { liga := some "Premier League", time_casa := some "Arsenal",
    time_fora := some "Chelsea", odd_casa := some "" }

/-- The `ConsultaAposta` built from `dadosOddVazia` at time `0`: no odds group
is populated even though the `odd_casa` key is present in the body. -/
def consultaOddVazia : ConsultaAposta :=
  { liga := "Premier League", time_casa := "Arsenal", time_fora := "Chelsea",
    timestamp := 0 }

/-- Request body holding an odds field that does not parse as a float. -/
def dadosOddInvalida : Dados :=
  { liga := some "Test League", time_casa := some "A", time_fora := some "B",
    odd_casa := some "abc" }

/-- The same Query as `consultaTeste` but created at a later wall-clock time. -/
def consultaTesteT1 : ConsultaAposta :=
  { liga := "Test League", time_casa := "A", time_fora := "B", timestamp := 1 }

/-- Conjunction stated by claim C4 as amended: for the Query built by the
validator, each odds group is populated exactly when some member of the group
is provided with a non-empty value; unpopulated groups are echoed as null in
the success payload; populated groups are echoed exactly; and each provided
member's parsed numeric value reappears exactly in the Query's group (and hence
in the echoed `odds_fornecidas`). -/
def C4Conclusao (a : AnalistaQuantitativoXG) (dados : Dados) (c : ConsultaAposta)
    (t : String) : Prop :=
  ((c.odds_1x2 = none ↔ grupo1x2Fornecido dados = false) ∧
    (processar_consulta a c (.texto t)).eco1x2 = some c.odds_1x2) ∧
  ((c.odds_over_under = none ↔ grupoOverUnderFornecido dados = false) ∧
    (processar_consulta a c (.texto t)).ecoOverUnder = some c.odds_over_under) ∧
  ((c.odds_btts = none ↔ grupoBttsFornecido dados = false) ∧
    (processar_consulta a c (.texto t)).ecoBtts = some c.odds_btts) ∧
  (∀ s, dados.odd_casa = some s → s ≠ "" →
    ∃ g q, c.odds_1x2 = some g ∧ parsePyFloat s = some q ∧ g.casa = some q) ∧
  (∀ s, dados.odd_empate = some s → s ≠ "" →
    ∃ g q, c.odds_1x2 = some g ∧ parsePyFloat s = some q ∧ g.empate = some q) ∧
  (∀ s, dados.odd_fora = some s → s ≠ "" →
    ∃ g q, c.odds_1x2 = some g ∧ parsePyFloat s = some q ∧ g.fora = some q) ∧
  (∀ s, dados.odd_over = some s → s ≠ "" →
    ∃ g q, c.odds_over_under = some g ∧ parsePyFloat s = some q ∧ g.over = some q) ∧
  (∀ s, dados.odd_under = some s → s ≠ "" →
    ∃ g q, c.odds_over_under = some g ∧ parsePyFloat s = some q ∧ g.under = some q) ∧
  (∀ s, dados.odd_btts_sim = some s → s ≠ "" →
    ∃ g q, c.odds_btts = some g ∧ parsePyFloat s = some q ∧ g.sim = some q) ∧
  (∀ s, dados.odd_btts_nao = some s → s ≠ "" →
    ∃ g q, c.odds_btts = some g ∧ parsePyFloat s = some q ∧ g.nao = some q)

theorem truthy_eq_false_iff (o : Option String) :
    truthy o = false ↔ (o = none ∨ o = some "") := by
  cases o with
  | none => simp [truthy]
  | some s => simp [truthy]

theorem truthy_some_ne (s : String) (h : s ≠ "") : truthy (some s) = true := by
  simp [truthy, h]

theorem truthy_getD_ne (o : Option String) (h : truthy o = true) : o.getD "" ≠ "" := by
  cases o with
  | none => simp [truthy] at h
  | some s => simpa [truthy] using h

theorem parseOdd_falsy (o : Option String) (h : truthy o = false) : parseOdd o = .ok none := by
  simp [parseOdd, h]

theorem parseOdd_ok_of_truthy (o : Option String) (v : Option PyFloat)
    (ht : truthy o = true) (h : parseOdd o = .ok v) :
    ∃ q, parsePyFloat (o.getD "") = some q ∧ v = some q := by
  rw [parseOdd, ht] at h
  simp only [Bool.true_eq_false, if_false] at h
  cases hp : parsePyFloat (o.getD "") with
  | none => rw [hp] at h; simp at h
  | some q => rw [hp] at h; simp at h; exact ⟨q, rfl, h.symm⟩

theorem parseOdd_some_ok (s : String) (v : Option PyFloat) (hne : s ≠ "")
    (h : parseOdd (some s) = .ok v) :
    ∃ q, parsePyFloat s = some q ∧ v = some q := by
  obtain ⟨q, hq, hv⟩ := parseOdd_ok_of_truthy (some s) v (truthy_some_ne s hne) h
  exact ⟨q, hq, hv⟩

theorem validarOdds1x2_ok_inv (dados : Dados) (og : Option Odds1x2)
    (h : validarOdds1x2 dados = .ok og) :
    (grupo1x2Fornecido dados = false ∧ og = none) ∨
    (grupo1x2Fornecido dados = true ∧ ∃ vc ve vf,
      parseOdd dados.odd_casa = .ok vc ∧ parseOdd dados.odd_empate = .ok ve ∧
      parseOdd dados.odd_fora = .ok vf ∧ og = some ⟨vc, ve, vf⟩) := by
  unfold validarOdds1x2 at h
  split at h
  · next hg =>
    right
    refine ⟨hg, ?_⟩
    cases hc : parseOdd dados.odd_casa with
    | error e => rw [hc] at h; simp at h
    | ok vc =>
      rw [hc] at h
      cases he : parseOdd dados.odd_empate with
      | error e => rw [he] at h; simp at h
      | ok ve =>
        rw [he] at h
        cases hf : parseOdd dados.odd_fora with
        | error e => rw [hf] at h; simp at h
        | ok vf =>
          rw [hf] at h
          simp only [Except.ok.injEq] at h
          exact ⟨vc, ve, vf, rfl, rfl, rfl, h.symm⟩
  · next hg =>
    simp only [Except.ok.injEq] at h
    exact Or.inl ⟨by simpa using hg, h.symm⟩

theorem validarOddsOverUnder_ok_inv (dados : Dados) (og : Option OddsOverUnder)
    (h : validarOddsOverUnder dados = .ok og) :
    (grupoOverUnderFornecido dados = false ∧ og = none) ∨
    (grupoOverUnderFornecido dados = true ∧ ∃ vo vu,
      parseOdd dados.odd_over = .ok vo ∧ parseOdd dados.odd_under = .ok vu ∧
      og = some ⟨vo, vu⟩) := by
  unfold validarOddsOverUnder at h
  split at h
  · next hg =>
    right
    refine ⟨hg, ?_⟩
    cases ho : parseOdd dados.odd_over with
    | error e => rw [ho] at h; simp at h
    | ok vo =>
      rw [ho] at h
      cases hu : parseOdd dados.odd_under with
      | error e => rw [hu] at h; simp at h
      | ok vu =>
        rw [hu] at h
        simp only [Except.ok.injEq] at h
        exact ⟨vo, vu, rfl, rfl, h.symm⟩
  · next hg =>
    simp only [Except.ok.injEq] at h
    exact Or.inl ⟨by simpa using hg, h.symm⟩

theorem validarOddsBtts_ok_inv (dados : Dados) (og : Option OddsBtts)
    (h : validarOddsBtts dados = .ok og) :
    (grupoBttsFornecido dados = false ∧ og = none) ∨
    (grupoBttsFornecido dados = true ∧ ∃ vs vn,
      parseOdd dados.odd_btts_sim = .ok vs ∧ parseOdd dados.odd_btts_nao = .ok vn ∧
      og = some ⟨vs, vn⟩) := by
  unfold validarOddsBtts at h
  split at h
  · next hg =>
    right
    refine ⟨hg, ?_⟩
    cases hs : parseOdd dados.odd_btts_sim with
    | error e => rw [hs] at h; simp at h
    | ok vs =>
      rw [hs] at h
      cases hn : parseOdd dados.odd_btts_nao with
      | error e => rw [hn] at h; simp at h
      | ok vn =>
        rw [hn] at h
        simp only [Except.ok.injEq] at h
        exact ⟨vs, vn, rfl, rfl, h.symm⟩
  · next hg =>
    simp only [Except.ok.injEq] at h
    exact Or.inl ⟨by simpa using hg, h.symm⟩

theorem validar_ok_inv (dados : Dados) (agora : Nat) (c : ConsultaAposta)
    (h : validar_contexto_consulta dados agora = .ok c) :
    truthy dados.liga = true ∧ truthy dados.time_casa = true ∧
    truthy dados.time_fora = true ∧
    validarOdds1x2 dados = .ok c.odds_1x2 ∧
    validarOddsOverUnder dados = .ok c.odds_over_under ∧
    validarOddsBtts dados = .ok c.odds_btts ∧
    c.liga = dados.liga.getD "" ∧ c.time_casa = dados.time_casa.getD "" ∧
    c.time_fora = dados.time_fora.getD "" ∧
    c.contexto_adicional = dados.contexto_adicional ∧ c.timestamp = agora := by
  unfold validar_contexto_consulta at h
  split at h
  · simp at h
  · split at h
    · simp at h
    · split at h
      · simp at h
      · next hl hc hf =>
        cases h1 : validarOdds1x2 dados with
        | error e => rw [h1] at h; simp at h
        | ok o1 =>
          rw [h1] at h
          cases h2 : validarOddsOverUnder dados with
          | error e => rw [h2] at h; simp at h
          | ok o2 =>
            rw [h2] at h
            cases h3 : validarOddsBtts dados with
            | error e => rw [h3] at h; simp at h
            | ok o3 =>
              rw [h3] at h
              simp only [Except.ok.injEq] at h
              subst h
              refine ⟨by simpa using hl, by simpa using hc, by simpa using hf,
                ?_, ?_, ?_, rfl, rfl, rfl, rfl, rfl⟩
              · simp
              · simp
              · simp

/-- C5: when the gateway instance is not initialized (the process-wide global
is `None`, as happens when the API credential was absent at startup), every
request to POST /analisar_aposta returns HTTP 500 with the fixed
"not initialized" error message, independently of the request body and of the
external model's (never consulted) outcome, so neither the validator nor the
external model influences the response. -/
theorem claim_C5_nao_inicializado (dados : Dados) (agora : Nat) (r : RespostaApi) :
    analisar_aposta none dados agora r =
      (Resultado.erro msgNaoInicializado detalhesNaoInicializado, 500) ∧
    (Resultado.erro msgNaoInicializado detalhesNaoInicializado).ehErro = true :=
  ⟨rfl, rfl⟩

/-- C8: processar_consulta is total in its error handling: for every Query and
every outcome of the external call (success, content-safety block, extraction
failure, or any other exception) it returns a structured result — the success
payload exactly for the success outcome, and error payloads with three pairwise
distinct messages for the three failure paths — and, being a total function of
the outcome, never propagates an exception past the gateway boundary. -/
theorem claim_C8_processar_total (a : AnalistaQuantitativoXG) (c : ConsultaAposta)
    (t fb e1 e2 : String) :
    processar_consulta a c (.texto t) =
      .sucesso t (c.time_casa ++ (" vs " ++ c.time_fora)) c.liga c.odds_1x2
        c.odds_over_under c.odds_btts c.timestamp (a.model_name ++ " (Google AI)")
        metodologiaConstante disclaimerResposta ∧
    processar_consulta a c (.bloqueada fb) =
      .erro msgBloqueioSeguranca ("Feedback do Prompt: " ++ fb) ∧
    processar_consulta a c (.erroExtracao e1) = .erro msgErroExtracao e1 ∧
    processar_consulta a c (.excecao e2) = .erro msgErroInterno e2 ∧
    (processar_consulta a c (.texto t)).ehSucesso = true ∧
    (processar_consulta a c (.bloqueada fb)).ehErro = true ∧
    (processar_consulta a c (.erroExtracao e1)).ehErro = true ∧
    (processar_consulta a c (.excecao e2)).ehErro = true ∧
    msgBloqueioSeguranca ≠ msgErroExtracao ∧ msgBloqueioSeguranca ≠ msgErroInterno ∧
    msgErroExtracao ≠ msgErroInterno :=
  ⟨rfl, rfl, rfl, rfl, rfl, rfl, rfl, rfl, by decide, by decide, by decide⟩

/-- C2: when the external model withholds a response due to content-safety
filtering, the request produces an error result whose message is the dedicated
safety-block message — distinct from the generic transport-failure message of
the outer exception handler — and the route returns it as a 200-status JSON
error payload (not HTTP 400 or 500). -/
theorem claim_C2_bloqueio_seguranca (a : AnalistaQuantitativoXG) (dados : Dados)
    (agora : Nat) (c : ConsultaAposta) (fb : String)
    (h : validar_contexto_consulta dados agora = .ok c) :
    analisar_aposta (some a) dados agora (.bloqueada fb) =
      (.erro msgBloqueioSeguranca ("Feedback do Prompt: " ++ fb), 200) ∧
    msgBloqueioSeguranca ≠ msgErroInterno ∧
    (Resultado.erro msgBloqueioSeguranca ("Feedback do Prompt: " ++ fb)).ehErro = true := by
  refine ⟨?_, by decide, rfl⟩
  simp [analisar_aposta, h, processar_consulta]

/-- Witness for C2 at the concrete minimal valid body. -/
theorem claim_C2_testemunha :
    analisar_aposta (some analistaTeste) dadosTeste 0 (.bloqueada "categoria") =
      (.erro msgBloqueioSeguranca ("Feedback do Prompt: " ++ "categoria"), 200) ∧
    msgBloqueioSeguranca ≠ msgErroInterno ∧
    (Resultado.erro msgBloqueioSeguranca ("Feedback do Prompt: " ++ "categoria")).ehErro = true :=
  claim_C2_bloqueio_seguranca analistaTeste dadosTeste 0 consultaTeste "categoria" rfl

/-- C3 fails as stated: a content-safety block on a valid body yields an error
payload with HTTP status 200, a status/shape combination the claim excludes. -/
theorem claim_C3_contraexemplo :
    ¬ (∀ (inst : Option AnalistaQuantitativoXG) (dados : Dados) (agora : Nat)
        (r : RespostaApi),
        ((analisar_aposta inst dados agora r).1.ehSucesso = true ∧
          (analisar_aposta inst dados agora r).2 = 200) ∨
        ((analisar_aposta inst dados agora r).1.ehErro = true ∧
          ((analisar_aposta inst dados agora r).2 = 400 ∨
            (analisar_aposta inst dados agora r).2 = 500))) := by
  intro hclaim
  rcases hclaim (some analistaTeste) dadosTeste 0 (.bloqueada "categoria") with h | h
  · exact absurd h.1 (by decide)
  · rcases h.2 with h2 | h2 <;> exact absurd h2 (by decide)

/-- C3 amended: every response of POST /analisar_aposta is the success payload
with HTTP 200, an error payload with HTTP 400 (validation failure), an error
payload with HTTP 500 (uninitialized gateway), or an error payload with HTTP
200 when the upstream call does not return text (safety block, extraction
failure, or transport failure, wrapped by processar_consulta); no other
status/shape combination occurs. -/
theorem claim_C3_status_e_formas (inst : Option AnalistaQuantitativoXG) (dados : Dados)
    (agora : Nat) (r : RespostaApi) :
    (inst = none ∧ analisar_aposta inst dados agora r =
        (.erro msgNaoInicializado detalhesNaoInicializado, 500)) ∨
    (∃ a e, inst = some a ∧ validar_contexto_consulta dados agora = .error e ∧
        analisar_aposta inst dados agora r = (.erro msgDadosInvalidos e, 400)) ∨
    (∃ a c t, inst = some a ∧ validar_contexto_consulta dados agora = .ok c ∧
        r = .texto t ∧
        analisar_aposta inst dados agora r = (processar_consulta a c r, 200) ∧
        (processar_consulta a c r).ehSucesso = true) ∨
    (∃ a c, inst = some a ∧ validar_contexto_consulta dados agora = .ok c ∧
        (∀ t, r ≠ .texto t) ∧
        analisar_aposta inst dados agora r = (processar_consulta a c r, 200) ∧
        (processar_consulta a c r).ehErro = true) := by
  cases inst with
  | none => exact Or.inl ⟨rfl, rfl⟩
  | some a =>
    cases hv : validar_contexto_consulta dados agora with
    | error e =>
      exact Or.inr (Or.inl ⟨a, e, rfl, rfl, by simp [analisar_aposta, hv]⟩)
    | ok c =>
      cases r with
      | texto t =>
        exact Or.inr (Or.inr (Or.inl ⟨a, c, t, rfl, rfl, rfl,
          by simp [analisar_aposta, hv], rfl⟩))
      | bloqueada fb =>
        refine Or.inr (Or.inr (Or.inr ⟨a, c, rfl, rfl, ?_, ?_, rfl⟩))
        · intro t h
          exact RespostaApi.noConfusion h
        · simp [analisar_aposta, hv]
      | erroExtracao e1 =>
        refine Or.inr (Or.inr (Or.inr ⟨a, c, rfl, rfl, ?_, ?_, rfl⟩))
        · intro t h
          exact RespostaApi.noConfusion h
        · simp [analisar_aposta, hv]
      | excecao e2 =>
        refine Or.inr (Or.inr (Or.inr ⟨a, c, rfl, rfl, ?_, ?_, rfl⟩))
        · intro t h
          exact RespostaApi.noConfusion h
        · simp [analisar_aposta, hv]

/-- C1: a body whose `liga`, `time_casa` or `time_fora` is missing or the empty
string makes the validator raise a validation error, and the route answers with
the error flag true and HTTP 400; conversely every `ConsultaAposta` the
validator constructs has league, home team and away team non-empty. -/
theorem claim_C1_campos_obrigatorios :
    (∀ (a : AnalistaQuantitativoXG) (dados : Dados) (agora : Nat) (r : RespostaApi),
      ((dados.liga = none ∨ dados.liga = some "") ∨
       (dados.time_casa = none ∨ dados.time_casa = some "") ∨
       (dados.time_fora = none ∨ dados.time_fora = some "")) →
      ∃ e, validar_contexto_consulta dados agora = .error e ∧
        analisar_aposta (some a) dados agora r = (.erro msgDadosInvalidos e, 400) ∧
        (Resultado.erro msgDadosInvalidos e).ehErro = true) ∧
    (∀ (dados : Dados) (agora : Nat) (c : ConsultaAposta),
      validar_contexto_consulta dados agora = .ok c →
      c.liga ≠ "" ∧ c.time_casa ≠ "" ∧ c.time_fora ≠ "") := by
  constructor
  · intro a dados agora r h
    have hfalse : truthy dados.liga = false ∨ truthy dados.time_casa = false ∨
        truthy dados.time_fora = false := by
      rcases h with h | h | h
      · exact Or.inl ((truthy_eq_false_iff _).mpr h)
      · exact Or.inr (Or.inl ((truthy_eq_false_iff _).mpr h))
      · exact Or.inr (Or.inr ((truthy_eq_false_iff _).mpr h))
    have herr : ∃ e, validar_contexto_consulta dados agora = .error e := by
      cases hb : truthy dados.liga with
      | false =>
        exact ⟨"Liga/Campeonato é obrigatório", by simp [validar_contexto_consulta, hb]⟩
      | true =>
        cases hc : truthy dados.time_casa with
        | false =>
          exact ⟨"Time da casa é obrigatório", by simp [validar_contexto_consulta, hb, hc]⟩
        | true =>
          cases hf : truthy dados.time_fora with
          | false =>
            exact ⟨"Time visitante é obrigatório",
              by simp [validar_contexto_consulta, hb, hc, hf]⟩
          | true => rcases hfalse with h' | h' | h' <;> simp [hb, hc, hf] at h'
    obtain ⟨e, he⟩ := herr
    exact ⟨e, he, by simp [analisar_aposta, he], rfl⟩
  · intro dados agora c h
    obtain ⟨hl, hc, hf, _, _, _, el, ec, ef, _, _⟩ := validar_ok_inv dados agora c h
    refine ⟨?_, ?_, ?_⟩
    · rw [el]; exact truthy_getD_ne _ hl
    · rw [ec]; exact truthy_getD_ne _ hc
    · rw [ef]; exact truthy_getD_ne _ hf

/-- Witness for C1: a body missing `liga` is rejected with 400, and the query
built from the minimal valid body has its three identifiers non-empty. -/
theorem claim_C1_testemunha :
    (∃ e, validar_contexto_consulta dadosSemLiga 0 = .error e ∧
      analisar_aposta (some analistaTeste) dadosSemLiga 0 (.texto "ok") =
        (.erro msgDadosInvalidos e, 400) ∧
      (Resultado.erro msgDadosInvalidos e).ehErro = true) ∧
    (consultaTeste.liga ≠ "" ∧ consultaTeste.time_casa ≠ "" ∧
      consultaTeste.time_fora ≠ "") :=
  ⟨claim_C1_campos_obrigatorios.1 analistaTeste dadosSemLiga 0 (.texto "ok")
      (Or.inl (Or.inl rfl)),
    claim_C1_campos_obrigatorios.2 dadosTeste 0 consultaTeste rfl⟩

theorem parseOdd_ok_nao_invalido (o : Option String) (v : Option PyFloat)
    (h : parseOdd o = .ok v) : campoOddInvalido o = false := by
  unfold campoOddInvalido
  cases ht : truthy o with
  | false => simp
  | true =>
    obtain ⟨q, hq, _⟩ := parseOdd_ok_of_truthy o v ht h
    simp [hq]

theorem validar_ok_sem_odd_invalida (dados : Dados) (agora : Nat) (c : ConsultaAposta)
    (h : validar_contexto_consulta dados agora = .ok c) :
    algumaOddInvalida dados = false := by
  obtain ⟨_, _, _, h1, h2, h3, _⟩ := validar_ok_inv dados agora c h
  have g1 : campoOddInvalido dados.odd_casa = false ∧
      campoOddInvalido dados.odd_empate = false ∧
      campoOddInvalido dados.odd_fora = false := by
    rcases validarOdds1x2_ok_inv dados _ h1 with ⟨hg, _⟩ | ⟨_, vc, ve, vf, hc, he, hf, _⟩
    · simp [grupo1x2Fornecido] at hg
      obtain ⟨⟨hca, hem⟩, hfo⟩ := hg
      exact ⟨by simp [campoOddInvalido, hca], by simp [campoOddInvalido, hem],
        by simp [campoOddInvalido, hfo]⟩
    · exact ⟨parseOdd_ok_nao_invalido _ _ hc, parseOdd_ok_nao_invalido _ _ he,
        parseOdd_ok_nao_invalido _ _ hf⟩
  have g2 : campoOddInvalido dados.odd_over = false ∧
      campoOddInvalido dados.odd_under = false := by
    rcases validarOddsOverUnder_ok_inv dados _ h2 with ⟨hg, _⟩ | ⟨_, vo, vu, ho, hu, _⟩
    · simp [grupoOverUnderFornecido] at hg
      exact ⟨by simp [campoOddInvalido, hg.1], by simp [campoOddInvalido, hg.2]⟩
    · exact ⟨parseOdd_ok_nao_invalido _ _ ho, parseOdd_ok_nao_invalido _ _ hu⟩
  have g3 : campoOddInvalido dados.odd_btts_sim = false ∧
      campoOddInvalido dados.odd_btts_nao = false := by
    rcases validarOddsBtts_ok_inv dados _ h3 with ⟨hg, _⟩ | ⟨_, vs, vn, hs, hn, _⟩
    · simp [grupoBttsFornecido] at hg
      exact ⟨by simp [campoOddInvalido, hg.1], by simp [campoOddInvalido, hg.2]⟩
    · exact ⟨parseOdd_ok_nao_invalido _ _ hs, parseOdd_ok_nao_invalido _ _ hn⟩
  simp [algumaOddInvalida, g1.1, g1.2.1, g1.2.2, g2.1, g2.2, g3.1, g3.2]

theorem validarOdds1x2_none_iff (dados : Dados) (og : Option Odds1x2)
    (h : validarOdds1x2 dados = .ok og) :
    og = none ↔ grupo1x2Fornecido dados = false := by
  rcases validarOdds1x2_ok_inv dados og h with ⟨hg, hn⟩ | ⟨hg, _, _, _, _, _, _, hog⟩
  · simp [hg, hn]
  · simp [hg, hog]

theorem validarOddsOverUnder_none_iff (dados : Dados) (og : Option OddsOverUnder)
    (h : validarOddsOverUnder dados = .ok og) :
    og = none ↔ grupoOverUnderFornecido dados = false := by
  rcases validarOddsOverUnder_ok_inv dados og h with ⟨hg, hn⟩ | ⟨hg, _, _, _, _, hog⟩
  · simp [hg, hn]
  · simp [hg, hog]

theorem validarOddsBtts_none_iff (dados : Dados) (og : Option OddsBtts)
    (h : validarOddsBtts dados = .ok og) :
    og = none ↔ grupoBttsFornecido dados = false := by
  rcases validarOddsBtts_ok_inv dados og h with ⟨hg, hn⟩ | ⟨hg, _, _, _, _, hog⟩
  · simp [hg, hn]
  · simp [hg, hog]

theorem validarOdds1x2_membro_casa (dados : Dados) (og : Option Odds1x2) (s : String)
    (hs : dados.odd_casa = some s) (hne : s ≠ "")
    (h : validarOdds1x2 dados = .ok og) :
    ∃ g q, og = some g ∧ parsePyFloat s = some q ∧ g.casa = some q := by
  have ht : truthy dados.odd_casa = true := by rw [hs]; exact truthy_some_ne s hne
  rcases validarOdds1x2_ok_inv dados og h with ⟨hg, _⟩ | ⟨_, vc, ve, vf, hc, he, hf, hog⟩
  · exfalso; simp [grupo1x2Fornecido, ht] at hg
  · obtain ⟨q, hq, hv⟩ := parseOdd_ok_of_truthy _ _ ht hc
    rw [hs] at hq
    exact ⟨⟨vc, ve, vf⟩, q, hog, by simpa using hq, by simp [hv]⟩

theorem validarOdds1x2_membro_empate (dados : Dados) (og : Option Odds1x2) (s : String)
    (hs : dados.odd_empate = some s) (hne : s ≠ "")
    (h : validarOdds1x2 dados = .ok og) :
    ∃ g q, og = some g ∧ parsePyFloat s = some q ∧ g.empate = some q := by
  have ht : truthy dados.odd_empate = true := by rw [hs]; exact truthy_some_ne s hne
  rcases validarOdds1x2_ok_inv dados og h with ⟨hg, _⟩ | ⟨_, vc, ve, vf, hc, he, hf, hog⟩
  · exfalso; simp [grupo1x2Fornecido, ht] at hg
  · obtain ⟨q, hq, hv⟩ := parseOdd_ok_of_truthy _ _ ht he
    rw [hs] at hq
    exact ⟨⟨vc, ve, vf⟩, q, hog, by simpa using hq, by simp [hv]⟩

theorem validarOdds1x2_membro_fora (dados : Dados) (og : Option Odds1x2) (s : String)
    (hs : dados.odd_fora = some s) (hne : s ≠ "")
    (h : validarOdds1x2 dados = .ok og) :
    ∃ g q, og = some g ∧ parsePyFloat s = some q ∧ g.fora = some q := by
  have ht : truthy dados.odd_fora = true := by rw [hs]; exact truthy_some_ne s hne
  rcases validarOdds1x2_ok_inv dados og h with ⟨hg, _⟩ | ⟨_, vc, ve, vf, hc, he, hf, hog⟩
  · exfalso; simp [grupo1x2Fornecido, ht] at hg
  · obtain ⟨q, hq, hv⟩ := parseOdd_ok_of_truthy _ _ ht hf
    rw [hs] at hq
    exact ⟨⟨vc, ve, vf⟩, q, hog, by simpa using hq, by simp [hv]⟩

theorem validarOddsOverUnder_membro_over (dados : Dados) (og : Option OddsOverUnder)
    (s : String) (hs : dados.odd_over = some s) (hne : s ≠ "")
    (h : validarOddsOverUnder dados = .ok og) :
    ∃ g q, og = some g ∧ parsePyFloat s = some q ∧ g.over = some q := by
  have ht : truthy dados.odd_over = true := by rw [hs]; exact truthy_some_ne s hne
  rcases validarOddsOverUnder_ok_inv dados og h with ⟨hg, _⟩ | ⟨_, vo, vu, ho, hu, hog⟩
  · exfalso; simp [grupoOverUnderFornecido, ht] at hg
  · obtain ⟨q, hq, hv⟩ := parseOdd_ok_of_truthy _ _ ht ho
    rw [hs] at hq
    exact ⟨⟨vo, vu⟩, q, hog, by simpa using hq, by simp [hv]⟩

theorem validarOddsOverUnder_membro_under (dados : Dados) (og : Option OddsOverUnder)
    (s : String) (hs : dados.odd_under = some s) (hne : s ≠ "")
    (h : validarOddsOverUnder dados = .ok og) :
    ∃ g q, og = some g ∧ parsePyFloat s = some q ∧ g.under = some q := by
  have ht : truthy dados.odd_under = true := by rw [hs]; exact truthy_some_ne s hne
  rcases validarOddsOverUnder_ok_inv dados og h with ⟨hg, _⟩ | ⟨_, vo, vu, ho, hu, hog⟩
  · exfalso; simp [grupoOverUnderFornecido, ht] at hg
  · obtain ⟨q, hq, hv⟩ := parseOdd_ok_of_truthy _ _ ht hu
    rw [hs] at hq
    exact ⟨⟨vo, vu⟩, q, hog, by simpa using hq, by simp [hv]⟩

theorem validarOddsBtts_membro_sim (dados : Dados) (og : Option OddsBtts)
    (s : String) (hs : dados.odd_btts_sim = some s) (hne : s ≠ "")
    (h : validarOddsBtts dados = .ok og) :
    ∃ g q, og = some g ∧ parsePyFloat s = some q ∧ g.sim = some q := by
  have ht : truthy dados.odd_btts_sim = true := by rw [hs]; exact truthy_some_ne s hne
  rcases validarOddsBtts_ok_inv dados og h with ⟨hg, _⟩ | ⟨_, vs, vn, hsim, hnao, hog⟩
  · exfalso; simp [grupoBttsFornecido, ht] at hg
  · obtain ⟨q, hq, hv⟩ := parseOdd_ok_of_truthy _ _ ht hsim
    rw [hs] at hq
    exact ⟨⟨vs, vn⟩, q, hog, by simpa using hq, by simp [hv]⟩

theorem validarOddsBtts_membro_nao (dados : Dados) (og : Option OddsBtts)
    (s : String) (hs : dados.odd_btts_nao = some s) (hne : s ≠ "")
    (h : validarOddsBtts dados = .ok og) :
    ∃ g q, og = some g ∧ parsePyFloat s = some q ∧ g.nao = some q := by
  have ht : truthy dados.odd_btts_nao = true := by rw [hs]; exact truthy_some_ne s hne
  rcases validarOddsBtts_ok_inv dados og h with ⟨hg, _⟩ | ⟨_, vs, vn, hsim, hnao, hog⟩
  · exfalso; simp [grupoBttsFornecido, ht] at hg
  · obtain ⟨q, hq, hv⟩ := parseOdd_ok_of_truthy _ _ ht hnao
    rw [hs] at hq
    exact ⟨⟨vs, vn⟩, q, hog, by simpa using hq, by simp [hv]⟩

/-- C9: a request holding a truthy odds field whose value does not parse as a
float makes the validator's float conversion raise `ValueError`, and the route
answers HTTP 400 with the same generic validation message used for missing
required fields. -/
theorem claim_C9_odd_nao_numerica (a : AnalistaQuantitativoXG) (dados : Dados)
    (agora : Nat) (r : RespostaApi) (h : algumaOddInvalida dados = true) :
    ∃ e, validar_contexto_consulta dados agora = .error e ∧
      analisar_aposta (some a) dados agora r = (.erro msgDadosInvalidos e, 400) ∧
      (Resultado.erro msgDadosInvalidos e).ehErro = true := by
  cases hv : validar_contexto_consulta dados agora with
  | ok c =>
    exact absurd h (by simp [validar_ok_sem_odd_invalida dados agora c hv])
  | error e =>
    exact ⟨e, rfl, by simp [analisar_aposta, hv], rfl⟩

/-- Witness for C9 at `odd_casa = "abc"`. -/
theorem claim_C9_testemunha :
    algumaOddInvalida dadosOddInvalida = true ∧
    ∃ e, validar_contexto_consulta dadosOddInvalida 0 = .error e ∧
      analisar_aposta (some analistaTeste) dadosOddInvalida 0 (.texto "ok") =
        (.erro msgDadosInvalidos e, 400) ∧
      (Resultado.erro msgDadosInvalidos e).ehErro = true :=
  ⟨rfl, claim_C9_odd_nao_numerica analistaTeste dadosOddInvalida 0 (.texto "ok") rfl⟩

theorem validarOdds1x2_some_membro (dados : Dados) (g : Odds1x2)
    (h : validarOdds1x2 dados = .ok (some g)) :
    (g.casa.isSome || g.empate.isSome || g.fora.isSome) = true := by
  rcases validarOdds1x2_ok_inv dados _ h with ⟨_, hn⟩ | ⟨hg, vc, ve, vf, hc, he, hf, hog⟩
  · exact absurd hn (by simp)
  · injection hog with hg2
    subst hg2
    simp only [grupo1x2Fornecido, Bool.or_eq_true] at hg
    rcases hg with (ht | ht) | ht
    · obtain ⟨q, _, hv⟩ := parseOdd_ok_of_truthy _ _ ht hc
      simp [hv]
    · obtain ⟨q, _, hv⟩ := parseOdd_ok_of_truthy _ _ ht he
      simp [hv]
    · obtain ⟨q, _, hv⟩ := parseOdd_ok_of_truthy _ _ ht hf
      simp [hv]

theorem validarOddsOverUnder_some_membro (dados : Dados) (g : OddsOverUnder)
    (h : validarOddsOverUnder dados = .ok (some g)) :
    (g.over.isSome || g.under.isSome) = true := by
  rcases validarOddsOverUnder_ok_inv dados _ h with ⟨_, hn⟩ | ⟨hg, vo, vu, ho, hu, hog⟩
  · exact absurd hn (by simp)
  · injection hog with hg2
    subst hg2
    simp only [grupoOverUnderFornecido, Bool.or_eq_true] at hg
    rcases hg with ht | ht
    · obtain ⟨q, _, hv⟩ := parseOdd_ok_of_truthy _ _ ht ho
      simp [hv]
    · obtain ⟨q, _, hv⟩ := parseOdd_ok_of_truthy _ _ ht hu
      simp [hv]

theorem validarOddsBtts_some_membro (dados : Dados) (g : OddsBtts)
    (h : validarOddsBtts dados = .ok (some g)) :
    (g.sim.isSome || g.nao.isSome) = true := by
  rcases validarOddsBtts_ok_inv dados _ h with ⟨_, hn⟩ | ⟨hg, vs, vn, hsim, hnao, hog⟩
  · exact absurd hn (by simp)
  · injection hog with hg2
    subst hg2
    simp only [grupoBttsFornecido, Bool.or_eq_true] at hg
    rcases hg with ht | ht
    · obtain ⟨q, _, hv⟩ := parseOdd_ok_of_truthy _ _ ht hsim
      simp [hv]
    · obtain ⟨q, _, hv⟩ := parseOdd_ok_of_truthy _ _ ht hnao
      simp [hv]

/-- C10: invariant of every Query the validator returns: each odds group that
is present (non-null) contains at least one member whose value is a non-null
number; the validator never constructs a present odds group all of whose
members are null. -/
theorem claim_C10_grupo_nao_vazio (dados : Dados) (agora : Nat) (c : ConsultaAposta)
    (h : validar_contexto_consulta dados agora = .ok c) :
    (∀ g, c.odds_1x2 = some g →
      (g.casa.isSome || g.empate.isSome || g.fora.isSome) = true) ∧
    (∀ g, c.odds_over_under = some g → (g.over.isSome || g.under.isSome) = true) ∧
    (∀ g, c.odds_btts = some g → (g.sim.isSome || g.nao.isSome) = true) := by
  obtain ⟨_, _, _, h1, h2, h3, _⟩ := validar_ok_inv dados agora c h
  refine ⟨?_, ?_, ?_⟩
  · intro g hg
    rw [hg] at h1
    exact validarOdds1x2_some_membro dados g h1
  · intro g hg
    rw [hg] at h2
    exact validarOddsOverUnder_some_membro dados g h2
  · intro g hg
    rw [hg] at h3
    exact validarOddsBtts_some_membro dados g h3

/-- Witness for C10 at a body where each present group has exactly one
provided member. -/
theorem claim_C10_testemunha :
    validar_contexto_consulta dadosComOdds 0 = .ok consultaComOdds ∧
    ((∀ g, consultaComOdds.odds_1x2 = some g →
        (g.casa.isSome || g.empate.isSome || g.fora.isSome) = true) ∧
      (∀ g, consultaComOdds.odds_over_under = some g →
        (g.over.isSome || g.under.isSome) = true) ∧
      (∀ g, consultaComOdds.odds_btts = some g →
        (g.sim.isSome || g.nao.isSome) = true)) :=
  ⟨rfl, claim_C10_grupo_nao_vazio dadosComOdds 0 consultaComOdds rfl⟩

/-- C4 fails as stated: with presence read as the field's key being present in
the JSON body, the body `dadosOddVazia` (whose `odd_casa` key is present but
holds the empty string) validates to a Query whose 1X2 group is unset, so the
"parsed exactly when some member is present" equivalence is false. -/
theorem claim_C4_contraexemplo :
    ¬ (∀ (dados : Dados) (agora : Nat) (c : ConsultaAposta),
        validar_contexto_consulta dados agora = .ok c →
        ((dados.odd_casa ≠ none ∨ dados.odd_empate ≠ none ∨ dados.odd_fora ≠ none) ↔
          c.odds_1x2 ≠ none)) := by
  intro hclaim
  have h := hclaim dadosOddVazia 0 consultaOddVazia rfl
  have h1 : consultaOddVazia.odds_1x2 ≠ none := h.mp (Or.inl (by simp [dadosOddVazia]))
  exact h1 rfl

/-- C4 amended: an odds group is parsed into numbers exactly when at least one
member of the group is present with a non-empty value (Python truthiness);
groups with no such member remain unset (null, not zero) both in the Query and
in the echoed `odds_fornecidas` of the success response, and each present
member's numeric value round-trips exactly from input to echoed response. -/
theorem claim_C4_grupos_odds (a : AnalistaQuantitativoXG) (dados : Dados) (agora : Nat)
    (c : ConsultaAposta) (t : String)
    (h : validar_contexto_consulta dados agora = .ok c) :
    C4Conclusao a dados c t := by
  obtain ⟨_, _, _, h1, h2, h3, _⟩ := validar_ok_inv dados agora c h
  exact ⟨⟨validarOdds1x2_none_iff dados _ h1, rfl⟩,
    ⟨validarOddsOverUnder_none_iff dados _ h2, rfl⟩,
    ⟨validarOddsBtts_none_iff dados _ h3, rfl⟩,
    fun s hs hne => validarOdds1x2_membro_casa dados _ s hs hne h1,
    fun s hs hne => validarOdds1x2_membro_empate dados _ s hs hne h1,
    fun s hs hne => validarOdds1x2_membro_fora dados _ s hs hne h1,
    fun s hs hne => validarOddsOverUnder_membro_over dados _ s hs hne h2,
    fun s hs hne => validarOddsOverUnder_membro_under dados _ s hs hne h2,
    fun s hs hne => validarOddsBtts_membro_sim dados _ s hs hne h3,
    fun s hs hne => validarOddsBtts_membro_nao dados _ s hs hne h3⟩

/-- Witness for the amended C4 at a body providing `odd_empate = "3.4"` and
`odd_btts_sim = "1.7"` only. -/
theorem claim_C4_testemunha :
    validar_contexto_consulta dadosComOdds 0 = .ok consultaComOdds ∧
    C4Conclusao analistaTeste dadosComOdds consultaComOdds "ok" :=
  ⟨rfl, claim_C4_grupos_odds analistaTeste dadosComOdds 0 consultaComOdds "ok" rfl⟩

theorem strContains_cons (a t sub : String) (h : strContains t sub) :
    strContains (a ++ t) sub := by
  obtain ⟨p, q, hp⟩ := h
  exact ⟨a ++ p, q, by rw [hp, String.append_assoc]⟩

theorem strContains_head (sub rest : String) : strContains (sub ++ rest) sub :=
  ⟨"", rest, by simp⟩

theorem strContains_glue3 (x y z rest sub : String) (h : x ++ (y ++ z) = sub) :
    strContains (x ++ (y ++ (z ++ rest))) sub := by
  refine ⟨"", rest, ?_⟩
  rw [← h]
  simp [String.append_assoc]

/-- C6: prompt rendering is a pure, deterministic function of the Query: two
Queries that agree on league, teams, the three odds groups and the free-text
context (the timestamp may differ) render character-for-character identical
prompt text, so re-submitting the same input yields a structurally identical
request to the external gateway modulo timestamp. -/
theorem claim_C6_prompt_deterministico (c1 c2 : ConsultaAposta)
    (h1 : c1.liga = c2.liga) (h2 : c1.time_casa = c2.time_casa)
    (h3 : c1.time_fora = c2.time_fora) (h4 : c1.odds_1x2 = c2.odds_1x2)
    (h5 : c1.odds_over_under = c2.odds_over_under) (h6 : c1.odds_btts = c2.odds_btts)
    (h7 : c1.contexto_adicional = c2.contexto_adicional) :
    gerar_prompt_especializado c1 = gerar_prompt_especializado c2 := by
  simp only [gerar_prompt_especializado, formatar_odds, linhaContexto,
    h1, h2, h3, h4, h5, h6, h7]

/-- Witness for C6: two copies of the minimal Query differing only in their
timestamps render the same prompt. -/
theorem claim_C6_testemunha :
    consultaTeste.timestamp ≠ consultaTesteT1.timestamp ∧
    gerar_prompt_especializado consultaTeste =
      gerar_prompt_especializado consultaTesteT1 :=
  ⟨by decide, claim_C6_prompt_deterministico consultaTeste consultaTesteT1
    rfl rfl rfl rfl rfl rfl rfl⟩

/-- C7: for the minimal valid input (league "Test League", home "A", away "B",
no odds, no context) the rendered prompt contains the league name, the
"A vs B" match identifiers and the fixed mandatory risk-disclaimer paragraph,
and the success response's `metodologia` field equals the fixed constant
string. -/
theorem claim_C7_prompt_minimo :
    validar_contexto_consulta dadosTeste 0 = .ok consultaTeste ∧
    strContains (gerar_prompt_especializado consultaTeste) "Test League" ∧
    strContains (gerar_prompt_especializado consultaTeste) "A vs B" ∧
    strContains (gerar_prompt_especializado consultaTeste) avisoDeRisco ∧
    (∀ t, (processar_consulta analistaTeste consultaTeste (.texto t)).metodologiaCampo =
      some metodologiaConstante) ∧
    metodologiaConstante =
      "Chain-of-Thought (5 passos) + Modelo Poisson + Kelly Criterion" := by
  have hp : gerar_prompt_especializado consultaTeste =
      promptCabecalho ++ ("Test League" ++ (promptPartida ++ ("A" ++ (" vs " ++ ("B" ++
        (promptOddsLabel ++ ("  • Odds não fornecidas" ++ ("\n" ++ ("" ++
        (promptProtocolo ++ ("A" ++ (" e " ++ ("B" ++ (promptPassos ++ (avisoDeRisco ++
        promptEncerramento))))))))))))))) := rfl
  refine ⟨rfl, ?_, ?_, ?_, fun t => rfl, rfl⟩
  · rw [hp]
    apply strContains_cons
    apply strContains_head
  · rw [hp]
    apply strContains_cons
    apply strContains_cons
    apply strContains_cons
    exact strContains_glue3 "A" " vs " "B" _ _ rfl
  · rw [hp]
    apply strContains_cons; apply strContains_cons; apply strContains_cons
    apply strContains_cons; apply strContains_cons; apply strContains_cons
    apply strContains_cons; apply strContains_cons; apply strContains_cons
    apply strContains_cons; apply strContains_cons; apply strContains_cons
    apply strContains_cons; apply strContains_cons; apply strContains_cons
    apply strContains_head
